import Mathlib

/-!
Verification of the agent session and credential subsystem of the
`my-ideas` backend (src/backend/app): a shallow embedding of
`core/errors.py`, `core/encryption.py`, `services/agent_credentials.py`,
`services/agent_auth.py`, `api/auth_utils.py` and `api/routes/auth.py`,
together with theorems settling the specification claims about error
propagation, session caching, refresh fallback and the cookie-refresh
cooldown.

External collaborators (the Supabase client, the Fernet cipher of the
`cryptography` package, Python primitives such as keyword-argument
binding, tuple unpacking, truthiness and `int()`) are modelled explicitly
from their documented behaviour; everything else is transcribed from the
repository source file by file.
-/

namespace MyIdeas

/-! ## Python runtime model: values and exceptions -/

/-- The Python values that flow through the embedded fragment. -/
inductive PyVal where
  | str (s : String)
  | int (n : Int)
  | pyNone
deriving DecidableEq, Repr

/-- The exceptions the embedded fragment can raise.

`apiError` is an instance of the repository's `APIError` class
(src/backend/app/core/errors.py) carrying `code`, `message` and
`status_code`; the other constructors are the relevant built-in Python /
FastAPI exception classes. -/
inductive PyExc where
  | typeError (msg : String)
  | valueError (msg : String)
  | apiError (code message : String) (status_code : Int)
  | httpException (status_code : Int) (detail : String)
deriving DecidableEq, Repr

/-- Truth test for `APIError` instances (Python `except APIError`). -/
def PyExc.isAPIError : PyExc → Bool
  | PyExc.apiError _ _ _ => true
  | _ => false

/-! ## `APIError.__init__` and the keyword calls made by the agent subsystem

`APIError.__init__` (src/backend/app/core/errors.py lines 27-38) has the
parameter list `(self, code, message, status_code=500, details=None)`.
The agent subsystem constructs the exception with
`APIError(message=..., status_code=..., error_code=...)` at every failure
site; Python binds keyword arguments against the parameter list and
raises `TypeError` when a keyword names no parameter or a parameter
without a default stays unbound. -/

/-- The parameters of `APIError.__init__` after `self`, each with a flag
recording whether it has a default value. -/
def APIErrorInitParams : List (String × Bool) :=
  [("code", false), ("message", false), ("status_code", true), ("details", true)]

/-- Look up a keyword argument by name. -/
def lookupKw (kwargs : List (String × PyVal)) (k : String) : Option PyVal :=
  (kwargs.find? (fun kv => kv.1 == k)).map (fun kv => kv.2)

/-- The `TypeError` message Python produces for a keyword argument that
names no parameter of `APIError.__init__`. -/
def kwargTypeErrorMsg : String :=
  "APIError.__init__() got an unexpected keyword argument"

/-- Python semantics of the keyword-only call `APIError(**kwargs)` against
`__init__(self, code, message, status_code=500, details=None)`: an unknown
keyword or an unbound mandatory parameter raises `TypeError`; otherwise
the `APIError` instance is built from the bound values. -/
def callAPIError (kwargs : List (String × PyVal)) : Except PyExc PyExc :=
  if kwargs.any (fun kv => (APIErrorInitParams.find? (fun p => p.1 == kv.1)).isNone) then
    Except.error (PyExc.typeError kwargTypeErrorMsg)
  else if APIErrorInitParams.any (fun p => !p.2 && (lookupKw kwargs p.1).isNone) then
    Except.error (PyExc.typeError "APIError.__init__() missing required positional arguments")
  else
    match lookupKw kwargs "code", lookupKw kwargs "message", lookupKw kwargs "status_code" with
    | some (PyVal.str c), some (PyVal.str m), some (PyVal.int sc) =>
      Except.ok (PyExc.apiError c m sc)
    | some (PyVal.str c), some (PyVal.str m), _ =>
      Except.ok (PyExc.apiError c m 500)
    | _, _, _ => Except.error (PyExc.typeError "APIError.__init__() bad argument types")

/-- The statement `raise APIError(message=..., status_code=..., error_code=...)`
as written at every failure site of the agent subsystem: evaluating the
constructor call determines the exception actually raised — the built
`APIError` when the call binds, otherwise the `TypeError` raised by the
call itself. -/
def raiseAgentAPIError (message : String) (status_code : Int) (error_code : String) : PyExc :=
  match callAPIError
      [("message", PyVal.str message), ("status_code", PyVal.int status_code),
       ("error_code", PyVal.str error_code)] with
  | Except.error e => e
  | Except.ok e => e

/-- The `except APIError: raise` / `except Exception: raise APIError(message=...,
status_code=..., error_code=...)` wrapper pattern used throughout the agent
subsystem: an `APIError` passes through unchanged, anything else is replaced
by the (attempted) generic `APIError`. -/
def wrapNonAPIError (e : PyExc) (message : String) (status_code : Int)
    (error_code : String) : PyExc :=
  if e.isAPIError then e else raiseAgentAPIError message status_code error_code

/-- Every `APIError(message=..., status_code=..., error_code=...)` call in the
agent subsystem raises `TypeError`: `error_code` names no parameter of
`APIError.__init__`. -/
theorem raiseAgentAPIError_eq (message : String) (status_code : Int) (error_code : String) :
    raiseAgentAPIError message status_code error_code = PyExc.typeError kwargTypeErrorMsg := rfl

theorem wrapNonAPIError_eq (e : PyExc) (message : String) (status_code : Int)
    (error_code : String) (h : e.isAPIError = false) :
    wrapNonAPIError e message status_code error_code = PyExc.typeError kwargTypeErrorMsg := by
  simp [wrapNonAPIError, h, raiseAgentAPIError_eq]

/-! ## Byte strings and UTF-8

`str.encode("utf-8")` / `bytes.decode("utf-8")` are modelled on the ASCII
fragment the agent subsystem exercises: below code point 128 the UTF-8
encoding of a character is its code point.  All strings the claims quantify
over (printable-ASCII passwords, base64 Fernet tokens) live in this
fragment. -/

/-- Model of `s.encode("utf-8")` on the ASCII fragment. -/
def utf8Encode (s : String) : List Nat := s.data.map Char.toNat

/-- Model of `bs.decode("utf-8")` on the ASCII fragment: non-ASCII byte lists are not
decoded (in Python a multi-byte decode or a `UnicodeDecodeError`; neither
occurs on the inputs the embedded code produces). -/
def utf8Decode (bs : List Nat) : Option String :=
  if bs.all (fun b => b < 128) then some (String.mk (bs.map Char.ofNat)) else none

theorem toNat_ofNat_of_lt {b : Nat} (h : b < 128) : (Char.ofNat b).toNat = b := by
  revert h
  revert b
  decide

theorem utf8Decode_utf8Encode (s : String) (h : ∀ c ∈ s.data, c.toNat < 128) :
    utf8Decode (utf8Encode s) = some s := by
  have hall : (utf8Encode s).all (fun b => b < 128) = true := by
    rw [List.all_eq_true]
    intro b hb
    simp only [utf8Encode, List.mem_map] at hb
    obtain ⟨c, hc, rfl⟩ := hb
    simpa using h c hc
  have hmap : (utf8Encode s).map Char.ofNat = s.data := by
    simp only [utf8Encode, List.map_map]
    have hcomp : (Char.ofNat ∘ Char.toNat) = id := by
      funext c
      simp [Function.comp, Char.ofNat_toNat]
    simp [hcomp]
  simp only [utf8Decode, hall, if_true, hmap]

theorem utf8Encode_utf8Decode (bs : List Nat) (s : String)
    (h : utf8Decode bs = some s) : utf8Encode s = bs := by
  by_cases hall : bs.all (fun b => b < 128) = true
  · simp only [utf8Decode, hall, if_pos, Option.some.injEq] at h
    subst h
    simp only [utf8Encode, String.mk, List.map_map]
    rw [List.all_eq_true] at hall
    calc bs.map (Char.toNat ∘ Char.ofNat) = bs.map id := by
          apply List.map_congr_left
          intro b hb
          exact toNat_ofNat_of_lt (by simpa using hall b hb)
      _ = bs := List.map_id bs
  · simp [utf8Decode, hall] at h

/-! ## The Fernet cipher

`cryptography.fernet.Fernet` is an external dependency, modelled from its
documented contract: `encrypt` produces an ASCII (urlsafe-base64) token;
`decrypt` restores the exact plaintext of a genuine token and raises
`InvalidToken` on every other input — in particular on a genuine token with
any single byte altered (the HMAC authentication rejects tampering). -/

structure FernetModel where
  enc : List Nat → List Nat
  dec : List Nat → Option (List Nat)
  enc_ascii : ∀ m b, b ∈ enc m → b < 128
  dec_enc : ∀ m, dec (enc m) = some m
  dec_genuine : ∀ c m, dec c = some m → c = enc m
  dec_corrupt : ∀ m i b, (h : i < (enc m).length) → b ≠ (enc m).get ⟨i, h⟩ →
    dec ((enc m).set i b) = none

/-! ## `core/encryption.py`

`get_fernet` yields the process-wide cipher, or raises when no key is
configured; the configured cipher is modelled as `Option FernetModel`
(`none` = `ENCRYPTION_KEY` missing or invalid, in which case `get_fernet`
itself attempts `raise APIError(..., error_code=...)`, whose `TypeError`
is then caught by the caller's `except Exception` and re-raised through
another such call). -/

/-- Embedding of `encrypt_password` (src/backend/app/core/encryption.py lines 47-75). -/
def encrypt_password (fer : Option FernetModel) (password : String) : Except PyExc String :=
  match fer with
  | none =>
    Except.error (raiseAgentAPIError "Password encryption failed" 500 "ENCRYPTION_ERROR")
  | some F =>
    match utf8Decode (F.enc (utf8Encode password)) with
    | some ct => Except.ok ct
    | none =>
      Except.error (raiseAgentAPIError "Password encryption failed" 500 "ENCRYPTION_ERROR")

/-- Embedding of `decrypt_password` (src/backend/app/core/encryption.py lines 78-116):
`InvalidToken` is caught and answered with
`raise APIError(message=..., status_code=500, error_code="DECRYPTION_INVALID_TOKEN")`,
any other failure with the `DECRYPTION_ERROR` variant. -/
def decrypt_password (fer : Option FernetModel) (encrypted : String) : Except PyExc String :=
  match fer with
  | none =>
    Except.error (raiseAgentAPIError "Password decryption failed" 500 "DECRYPTION_ERROR")
  | some F =>
    match F.dec (utf8Encode encrypted) with
    | none =>
      Except.error (raiseAgentAPIError "Password decryption failed: Invalid credentials"
        500 "DECRYPTION_INVALID_TOKEN")
    | some pt =>
      match utf8Decode pt with
      | some pw => Except.ok pw
      | none =>
        Except.error (raiseAgentAPIError "Password decryption failed" 500 "DECRYPTION_ERROR")

/-- Replacing byte `i` of (the UTF-8 bytes of) a ciphertext string by `b`. -/
def corruptByte (s : String) (i : Nat) (b : Nat) : String :=
  String.mk (((utf8Encode s).set i b).map Char.ofNat)

/-! ## A concrete cipher satisfying the Fernet contract

Used to witness the encryption theorems on explicit inputs: each plaintext
byte is written in unary (`n` ones then a zero) and a modular checksum of the
payload is appended.  The checksum catches every single-byte substitution by
another byte below 128, and the unary parser rejects every byte that is not
0 or 1, so the model provably has the tamper-detection property the Fernet
documentation promises. -/

/-- Unary encoding of a byte list: each `n` becomes `n` ones followed by a zero. -/
def unaryPayload (m : List Nat) : List Nat :=
  (m.map (fun n => List.replicate n 1 ++ [0])).flatten

/-- Inverse of `unaryPayload`; rejects any byte other than 0 and 1 and any
trailing run of ones. -/
def decodeUnary : List Nat → Option (List Nat)
  | [] => some []
  | 0 :: rest => (decodeUnary rest).map (fun ms => 0 :: ms)
  | 1 :: rest =>
    match decodeUnary rest with
    | some (n :: ms) => some ((n + 1) :: ms)
    | _ => none
  | _ :: _ => none

theorem decodeUnary_replicate (n : Nat) (rest : List Nat) :
    decodeUnary (List.replicate n 1 ++ 0 :: rest) =
      (decodeUnary rest).map (fun ms => n :: ms) := by
  induction n with
  | zero => simp [decodeUnary]
  | succ k ih =>
    rw [List.replicate_succ, List.cons_append]
    show decodeUnary (1 :: (List.replicate k 1 ++ 0 :: rest)) = _
    rw [decodeUnary, ih]
    cases decodeUnary rest <;> rfl

theorem unaryPayload_cons (n : Nat) (ms : List Nat) :
    unaryPayload (n :: ms) = List.replicate n 1 ++ 0 :: unaryPayload ms := by
  show (List.replicate n 1 ++ [0]) ++ unaryPayload ms = _
  rw [List.append_assoc]
  rfl

theorem decodeUnary_unaryPayload (m : List Nat) :
    decodeUnary (unaryPayload m) = some m := by
  induction m with
  | nil => rfl
  | cons n ms ih =>
    rw [unaryPayload_cons, decodeUnary_replicate, ih]
    rfl

theorem decodeUnary_inj (l m : List Nat) (h : decodeUnary l = some m) :
    l = unaryPayload m := by
  induction l generalizing m with
  | nil =>
    simp only [decodeUnary, Option.some.injEq] at h
    subst h
    rfl
  | cons x rest ih =>
    cases x with
    | zero =>
      rw [decodeUnary] at h
      cases hr : decodeUnary rest with
      | none => rw [hr] at h; simp at h
      | some ms =>
        rw [hr] at h
        simp at h
        subst h
        have hrest := ih ms hr
        subst hrest
        rw [unaryPayload_cons]
        rfl
    | succ x1 =>
      cases x1 with
      | zero =>
        rw [show (0 : Nat) + 1 = 1 from rfl, decodeUnary] at h
        cases hr : decodeUnary rest with
        | none => rw [hr] at h; simp at h
        | some ms0 =>
          rw [hr] at h
          cases ms0 with
          | nil => simp at h
          | cons n ms =>
            simp only [Option.some.injEq] at h
            subst h
            have hrest := ih (n :: ms) hr
            subst hrest
            rw [unaryPayload_cons, unaryPayload_cons, List.replicate_succ,
              List.cons_append]
      | succ k =>
        simp [decodeUnary] at h

theorem decodeUnary_foreign (l : List Nat) (b : Nat) (hb : b ∈ l)
    (h0 : b ≠ 0) (h1 : b ≠ 1) : decodeUnary l = none := by
  induction l with
  | nil => cases hb
  | cons x rest ih =>
    rcases List.mem_cons.mp hb with hx | hx
    · subst hx
      cases b with
      | zero => exact absurd rfl h0
      | succ b1 =>
        cases b1 with
        | zero => exact absurd rfl h1
        | succ k => simp [decodeUnary]
    · cases x with
      | zero => rw [decodeUnary, ih hx]; rfl
      | succ x1 =>
        cases x1 with
        | zero =>
          rw [show (0 : Nat) + 1 = 1 from rfl, decodeUnary, ih hx]
        | succ k => simp [decodeUnary]

/-- Payload bytes are zeros and ones. -/
theorem unaryPayload_mem (m : List Nat) (b : Nat) (hb : b ∈ unaryPayload m) :
    b = 0 ∨ b = 1 := by
  simp only [unaryPayload, List.mem_flatten, List.mem_map] at hb
  obtain ⟨l, ⟨n, _, rfl⟩, hbl⟩ := hb
  rcases List.mem_append.mp hbl with hrep | hz
  · right; exact List.eq_of_mem_replicate hrep
  · left; simpa using hz

/-- Checksum of a payload. -/
def toyChk (payload : List Nat) : Nat := payload.sum % 128

def toyEnc (m : List Nat) : List Nat :=
  unaryPayload m ++ [toyChk (unaryPayload m)]

def toyDec (c : List Nat) : Option (List Nat) :=
  match c.getLast? with
  | none => none
  | some last =>
    if last = toyChk c.dropLast then decodeUnary c.dropLast else none

theorem toyDec_eq (c : List Nat) (last : Nat) (hl : c.getLast? = some last) :
    toyDec c = if last = toyChk c.dropLast then decodeUnary c.dropLast else none := by
  unfold toyDec
  rw [hl]

theorem toyDec_none (c : List Nat) (hl : c.getLast? = none) : toyDec c = none := by
  unfold toyDec
  rw [hl]

theorem toyDec_enc (m : List Nat) : toyDec (toyEnc m) = some m := by
  rw [toyDec_eq (toyEnc m) (toyChk (unaryPayload m)) (List.getLast?_concat _)]
  unfold toyEnc
  rw [List.dropLast_concat, if_pos rfl]
  exact decodeUnary_unaryPayload m

theorem toyDec_genuine (c m : List Nat) (h : toyDec c = some m) : c = toyEnc m := by
  cases hl : c.getLast? with
  | none => rw [toyDec_none c hl] at h; cases h
  | some last =>
    rw [toyDec_eq c last hl] at h
    by_cases hchk : last = toyChk c.dropLast
    · rw [if_pos hchk] at h
      have hpayload := decodeUnary_inj _ _ h
      have hc : c ≠ [] := by
        intro hc
        rw [hc] at hl
        cases hl
      have hlast : c.getLast hc = last := by
        have := List.getLast?_eq_getLast c hc
        rw [hl] at this
        exact (Option.some.injEq _ _).mp this.symm
      have hsplit := List.dropLast_append_getLast hc
      rw [hlast, hchk, hpayload] at hsplit
      exact hsplit.symm
    · rw [if_neg hchk] at h; cases h

/-- Every byte of a toy token is below 128. -/
theorem toyEnc_ascii (m : List Nat) (b : Nat) (hb : b ∈ toyEnc m) : b < 128 := by
  unfold toyEnc at hb
  rcases List.mem_append.mp hb with hp | hc
  · rcases unaryPayload_mem m b hp with rfl | rfl <;> omega
  · have : b = toyChk (unaryPayload m) := by simpa using hc
    subst this
    exact Nat.mod_lt _ (by omega)

/-- Sums under a single-position update, in addition form (no truncated
subtraction). -/
theorem sum_set_add (l : List Nat) (i b : Nat) (h : i < l.length) :
    l.sum + b = (l.set i b).sum + l.get ⟨i, h⟩ := by
  induction l generalizing i with
  | nil => cases h
  | cons x t ih =>
    cases i with
    | zero => simp [List.sum_cons]; omega
    | succ j =>
      have hj : j < t.length := by simpa using h
      have := ih j hj
      simp only [List.set, List.sum_cons, List.get]
      omega

/-- Single-byte substitutions never decode: a byte outside {0, 1} is rejected
by the unary parser, and a byte inside {0, 1} shifts the payload sum by
exactly one, which the checksum byte detects. -/
theorem toyDec_corrupt (m : List Nat) (i b : Nat) (h : i < (toyEnc m).length)
    (hne : b ≠ (toyEnc m).get ⟨i, h⟩) :
    toyDec ((toyEnc m).set i b) = none := by
  have hlen : (toyEnc m).length = (unaryPayload m).length + 1 := by
    simp [toyEnc]
  by_cases hi : i < (unaryPayload m).length
  · -- corruption inside the payload
    have hset : (toyEnc m).set i b =
        (unaryPayload m).set i b ++ [toyChk (unaryPayload m)] := by
      unfold toyEnc
      exact List.set_append_left i b hi
    have hget : (toyEnc m).get ⟨i, h⟩ = (unaryPayload m).get ⟨i, hi⟩ := by
      unfold toyEnc
      simp [List.get_eq_getElem, List.getElem_append, hi]
    have hp01 := unaryPayload_mem m _ (List.get_mem (unaryPayload m) i hi)
    have hbp : b ≠ (unaryPayload m).get ⟨i, hi⟩ := by rw [← hget]; exact hne
    rw [hset, toyDec_eq _ (toyChk (unaryPayload m)) (List.getLast?_concat _),
      List.dropLast_concat]
    by_cases hb01 : b = 0 ∨ b = 1
    · -- checksum mismatch: the payload sum moves by exactly one
      have hsum := sum_set_add (unaryPayload m) i b hi
      have hchk : toyChk (unaryPayload m) ≠ toyChk ((unaryPayload m).set i b) := by
        unfold toyChk
        rcases hp01 with hp | hp <;> rcases hb01 with rfl | rfl <;>
          rw [hp] at hsum hbp <;> first
          | exact absurd rfl hbp
          | omega
      rw [if_neg hchk]
    · -- a foreign byte: the unary parser rejects it outright
      push_neg at hb01
      have hforeign : decodeUnary ((unaryPayload m).set i b) = none :=
        decodeUnary_foreign _ b (List.mem_set (unaryPayload m) i hi b) hb01.1 hb01.2
      by_cases hc : toyChk (unaryPayload m) = toyChk ((unaryPayload m).set i b)
      · rw [if_pos hc]; exact hforeign
      · rw [if_neg hc]
  · -- corruption of the checksum byte
    have hieq : i = (unaryPayload m).length := by omega
    have hset : (toyEnc m).set i b = unaryPayload m ++ [b] := by
      unfold toyEnc
      rw [hieq, List.set_append_right _ b (Nat.le_refl _)]
      simp
    have hget : (toyEnc m).get ⟨i, h⟩ = toyChk (unaryPayload m) := by
      unfold toyEnc
      simp only [List.get_eq_getElem, List.getElem_append, hieq]
      simp
    rw [hset, toyDec_eq _ b (List.getLast?_concat _), List.dropLast_concat]
    rw [if_neg (fun hb => hne (hb.trans hget.symm))]

/-- The concrete cipher packaged as a `FernetModel`. -/
def toyFernet : FernetModel where
  enc := toyEnc
  dec := toyDec
  enc_ascii := toyEnc_ascii
  dec_enc := toyDec_enc
  dec_genuine := toyDec_genuine
  dec_corrupt := toyDec_corrupt

/-- Every error produced by `decrypt_password` is the `TypeError` arising from
the malformed `APIError` constructor call. -/
theorem decrypt_password_error (fer : Option FernetModel) (encrypted : String) (e : PyExc)
    (h : decrypt_password fer encrypted = Except.error e) :
    e = PyExc.typeError kwargTypeErrorMsg := by
  cases fer with
  | none =>
    simp only [decrypt_password, raiseAgentAPIError_eq, Except.error.injEq] at h
    exact h.symm
  | some F =>
    simp only [decrypt_password] at h
    split at h
    · simp only [raiseAgentAPIError_eq, Except.error.injEq] at h
      exact h.symm
    · split at h
      · simp at h
      · simp only [raiseAgentAPIError_eq, Except.error.injEq] at h
        exact h.symm

/-! ## `services/agent_credentials.py` -/

/-- Python truthiness of an optional string: `None` and `""` are falsy. -/
def pyTruthy : Option String → Bool
  | none => false
  | some s => !(s == "")

/-- The `user_profiles` columns read by `get_agent_credentials`. -/
structure ProfileRow where
  agent_user_id : Option String
  agent_credentials_encrypted : Option String
deriving DecidableEq, Repr

/-- Outcome of the `admin_client.table("user_profiles").select(...).single().execute()`
call: the query raised, or returned a result whose `.data` is the (possibly
falsy) row. -/
inductive DbFetch where
  | exc
  | data (row : Option ProfileRow)

/-- Embedding of `generate_agent_email` (src/backend/app/services/agent_credentials.py
lines 18-27). -/
def generate_agent_email (user_id : String) : String :=
  "agent_" ++ user_id ++ "@code45.internal"

/-- Embedding of `get_agent_credentials` (src/backend/app/services/agent_credentials.py
lines 95-148).  Returns `none` for an absent or incomplete row; decryption
errors pass through `except APIError: raise` when they are `APIError`s and
are otherwise replaced by the generic retrieve error; a failing database
call likewise ends in the generic retrieve error. -/
def get_agent_credentials (fer : Option FernetModel) (db : String → DbFetch)
    (user_id : String) : Except PyExc (Option (String × String × String)) :=
  match db user_id with
  | DbFetch.exc =>
    Except.error (raiseAgentAPIError "Failed to retrieve agent credentials" 500
      "AGENT_CREDENTIALS_RETRIEVE_ERROR")
  | DbFetch.data none => Except.ok none
  | DbFetch.data (some row) =>
    if pyTruthy row.agent_user_id && pyTruthy row.agent_credentials_encrypted then
      match decrypt_password fer (row.agent_credentials_encrypted.getD "") with
      | Except.error e =>
        Except.error (wrapNonAPIError e "Failed to retrieve agent credentials" 500
          "AGENT_CREDENTIALS_RETRIEVE_ERROR")
      | Except.ok pw =>
        Except.ok (some (row.agent_user_id.getD "", generate_agent_email user_id, pw))
    else Except.ok none

/-- Every error produced by `get_agent_credentials` is the `TypeError` arising
from the malformed `APIError` constructor calls. -/
theorem get_agent_credentials_error (fer : Option FernetModel) (db : String → DbFetch)
    (user_id : String) (e : PyExc)
    (h : get_agent_credentials fer db user_id = Except.error e) :
    e = PyExc.typeError kwargTypeErrorMsg := by
  unfold get_agent_credentials at h
  split at h
  · simp only [raiseAgentAPIError_eq, Except.error.injEq] at h
    exact h.symm
  · cases h
  · rename_i row
    split at h
    · split at h
      · rename_i e0 he0
        simp only [Except.error.injEq] at h
        subst h
        rw [wrapNonAPIError_eq]
        rw [decrypt_password_error fer _ e0 he0]
        rfl
      · cases h
    · cases h

/-! ## `services/agent_auth.py`

The module-level session dictionary `_agent_sessions` and the count of
external `sign_in_with_password` calls form the threaded state; the
Supabase client's behaviour is an oracle in the environment.  Time
(`time.time()`) is a rational. -/

/-- One cached entry of `_agent_sessions`. -/
structure SessionData where
  access_token : String
  refresh_token : String
  expires_at : ℚ
  agent_user_id : String
deriving DecidableEq, Repr

/-- Outcome of `admin_client.auth.sign_in_with_password(...)`. -/
inductive SignInResult where
  | exc
  | noSession
  | ok (access_token refresh_token : String) (expires_in : Option ℚ)

/-- Outcome of `admin_client.auth.refresh_session(...)` (the refreshed
session carries its user for the human-session path). -/
inductive RefreshResult where
  | exc
  | noSession
  | ok (access_token refresh_token : String) (expires_in : Option ℚ)
      (user_id user_email : String)

structure AgentAuthEnv where
  fer : Option FernetModel
  db : String → DbFetch
  signIn : String → String → SignInResult
  refreshTok : String → RefreshResult
  now : ℚ

structure AgentAuthState where
  sessions : List (String × SessionData)
  signInCalls : Nat
deriving DecidableEq, Repr

/-- Dictionary assignment `d[k] = v`. -/
def dictSet (d : List (String × SessionData)) (k : String) (v : SessionData) :
    List (String × SessionData) :=
  (k, v) :: d.filter (fun kv => kv.1 != k)

/-- Dictionary deletion `del d[k]`. -/
def dictDel (d : List (String × SessionData)) (k : String) :
    List (String × SessionData) :=
  d.filter (fun kv => kv.1 != k)

/-- Python `x or d` on the optional `session.expires_in`: `None` and `0` are
falsy, so both fall back to the default 3600. -/
def pyOrNum (x : Option ℚ) (d : ℚ) : ℚ :=
  match x with
  | none => d
  | some v => if v = 0 then d else v

/-- The part of `authenticate_agent_user` after the cache test
(src/backend/app/services/agent_auth.py lines 46-119): credential fetch,
`sign_in_with_password`, caching, and the `except APIError: raise` /
`except Exception: raise APIError(..., error_code="AGENT_AUTH_ERROR")`
wrapper around the whole body.  The best-effort `agent_last_used_at`
timestamp update (lines 98-105) swallows its own exceptions and touches no
state modelled here. -/
def authAfterCacheMiss (env : AgentAuthEnv) (st : AgentAuthState) (user_id : String) :
    Except PyExc SessionData × AgentAuthState :=
  match get_agent_credentials env.fer env.db user_id with
  | Except.error e =>
    (Except.error (wrapNonAPIError e "Agent authentication error" 500 "AGENT_AUTH_ERROR"), st)
  | Except.ok none =>
    (Except.error (wrapNonAPIError
      (raiseAgentAPIError "Agent credentials not found for user" 404
        "AGENT_CREDENTIALS_NOT_FOUND")
      "Agent authentication error" 500 "AGENT_AUTH_ERROR"), st)
  | Except.ok (some creds) =>
    let st1 : AgentAuthState := { st with signInCalls := st.signInCalls + 1 }
    match env.signIn creds.2.1 creds.2.2 with
    | SignInResult.exc =>
      (Except.error (wrapNonAPIError
        (raiseAgentAPIError "Agent authentication failed" 401 "AGENT_AUTH_FAILED")
        "Agent authentication error" 500 "AGENT_AUTH_ERROR"), st1)
    | SignInResult.noSession =>
      (Except.error (wrapNonAPIError
        (raiseAgentAPIError "Agent authentication returned no session" 401
          "AGENT_AUTH_NO_SESSION")
        "Agent authentication error" 500 "AGENT_AUTH_ERROR"), st1)
    | SignInResult.ok access_token refresh_token expires_in =>
      let expires_at := env.now + pyOrNum expires_in 3600
      let session_data : SessionData :=
        ⟨access_token, refresh_token, expires_at, creds.1⟩
      (Except.ok session_data,
        { st1 with sessions := dictSet st1.sessions user_id session_data })

/-- Embedding of `authenticate_agent_user` (src/backend/app/services/agent_auth.py
lines 24-119): the cached session is returned as-is whenever
`cached_session["expires_at"] > time.time()`. -/
def authenticate_agent_user (env : AgentAuthEnv) (st : AgentAuthState) (user_id : String) :
    Except PyExc SessionData × AgentAuthState :=
  match List.lookup user_id st.sessions with
  | some cached_session =>
    if env.now < cached_session.expires_at then (Except.ok cached_session, st)
    else authAfterCacheMiss env st user_id
  | none => authAfterCacheMiss env st user_id

/-- Embedding of `refresh_agent_session` (src/backend/app/services/agent_auth.py
lines 186-245).  Its only handler is `except Exception`, which replaces any
exception — including `APIError`s raised by the fallback
`authenticate_agent_user` — with the (attempted) generic
`AGENT_SESSION_REFRESH_ERROR` `APIError`. -/
def refresh_agent_session (env : AgentAuthEnv) (st : AgentAuthState) (user_id : String) :
    Except PyExc SessionData × AgentAuthState :=
  match List.lookup user_id st.sessions with
  | none =>
    let r := authenticate_agent_user env st user_id
    (r.1.mapError (fun _ =>
      raiseAgentAPIError "Agent session refresh error" 500 "AGENT_SESSION_REFRESH_ERROR"),
     r.2)
  | some cached_session =>
    match env.refreshTok cached_session.refresh_token with
    | RefreshResult.exc =>
      let st1 : AgentAuthState := { st with sessions := dictDel st.sessions user_id }
      let r := authenticate_agent_user env st1 user_id
      (r.1.mapError (fun _ =>
        raiseAgentAPIError "Agent session refresh error" 500 "AGENT_SESSION_REFRESH_ERROR"),
       r.2)
    | RefreshResult.noSession =>
      let st1 : AgentAuthState := { st with sessions := dictDel st.sessions user_id }
      let r := authenticate_agent_user env st1 user_id
      (r.1.mapError (fun _ =>
        raiseAgentAPIError "Agent session refresh error" 500 "AGENT_SESSION_REFRESH_ERROR"),
       r.2)
    | RefreshResult.ok access_token refresh_token expires_in _ _ =>
      let expires_at := env.now + pyOrNum expires_in 3600
      let session_data : SessionData :=
        ⟨access_token, refresh_token, expires_at, cached_session.agent_user_id⟩
      (Except.ok session_data,
        { st with sessions := dictSet st.sessions user_id session_data })

theorem lookup_dictSet (d : List (String × SessionData)) (k : String) (v : SessionData) :
    List.lookup k (dictSet d k v) = some v := by
  simp [dictSet, List.lookup]

theorem lookup_dictDel (d : List (String × SessionData)) (k : String) :
    List.lookup k (dictDel d k) = none := by
  induction d with
  | nil => rfl
  | cons kv t ih =>
    obtain ⟨k1, v1⟩ := kv
    by_cases hk : k1 = k
    · rw [show dictDel ((k1, v1) :: t) k = dictDel t k from by
        simp [dictDel, List.filter_cons, hk]]
      exact ih
    · have h1 : dictDel ((k1, v1) :: t) k = (k1, v1) :: dictDel t k := by
        simp [dictDel, List.filter_cons, hk]
      rw [h1, List.lookup]
      have hbeq : (k == k1) = false := by
        rw [beq_eq_false_iff_ne]
        exact fun hkk => hk hkk.symm
      rw [hbeq]
      exact ih

theorem wrap_typeError (m message : String) (status_code : Int) (error_code : String) :
    wrapNonAPIError (PyExc.typeError m) message status_code error_code =
      PyExc.typeError kwargTypeErrorMsg :=
  wrapNonAPIError_eq _ _ _ _ rfl

theorem authAfterCacheMiss_error (env : AgentAuthEnv) (st : AgentAuthState)
    (user_id : String) (e : PyExc)
    (h : (authAfterCacheMiss env st user_id).1 = Except.error e) :
    e = PyExc.typeError kwargTypeErrorMsg := by
  unfold authAfterCacheMiss at h
  split at h
  · rename_i e0 he0
    simp only [Except.error.injEq] at h
    subst h
    rw [get_agent_credentials_error env.fer env.db user_id e0 he0, wrap_typeError]
  · simp only [raiseAgentAPIError_eq, wrap_typeError, Except.error.injEq] at h
    exact h.symm
  · split at h
    · simp only [raiseAgentAPIError_eq, wrap_typeError, Except.error.injEq] at h
      exact h.symm
    · simp only [raiseAgentAPIError_eq, wrap_typeError, Except.error.injEq] at h
      exact h.symm
    · cases h

theorem authenticate_agent_user_error (env : AgentAuthEnv) (st : AgentAuthState)
    (user_id : String) (e : PyExc)
    (h : (authenticate_agent_user env st user_id).1 = Except.error e) :
    e = PyExc.typeError kwargTypeErrorMsg := by
  unfold authenticate_agent_user at h
  split at h
  · split at h
    · cases h
    · exact authAfterCacheMiss_error env st user_id e h
  · exact authAfterCacheMiss_error env st user_id e h

theorem refresh_agent_session_error (env : AgentAuthEnv) (st : AgentAuthState)
    (user_id : String) (e : PyExc)
    (h : (refresh_agent_session env st user_id).1 = Except.error e) :
    e = PyExc.typeError kwargTypeErrorMsg := by
  unfold refresh_agent_session at h
  split at h
  · dsimp only at h
    cases hr : (authenticate_agent_user env st user_id).1 with
    | error e0 =>
      rw [hr] at h
      simp only [Except.mapError, raiseAgentAPIError_eq, Except.error.injEq] at h
      exact h.symm
    | ok v => rw [hr] at h; cases h
  · split at h
    · rename_i cs _
      dsimp only at h
      cases hr : (authenticate_agent_user env
          { st with sessions := dictDel st.sessions user_id } user_id).1 with
      | error e0 =>
        rw [hr] at h
        simp only [Except.mapError, raiseAgentAPIError_eq, Except.error.injEq] at h
        exact h.symm
      | ok v => rw [hr] at h; cases h
    · rename_i cs _
      dsimp only at h
      cases hr : (authenticate_agent_user env
          { st with sessions := dictDel st.sessions user_id } user_id).1 with
      | error e0 =>
        rw [hr] at h
        simp only [Except.mapError, raiseAgentAPIError_eq, Except.error.injEq] at h
        exact h.symm
      | ok v => rw [hr] at h; cases h
    · cases h

/-! ## `api/auth_utils.py` and `api/routes/auth.py` (human-session side)

`get_current_user` validates the access token, and on failure enters the
auto-refresh path guarded by the per-token-prefix cooldown
(`_last_refresh_time`, `REFRESH_COOLDOWN_SECONDS = 5`).  The explicit
`POST /auth/refresh` handler (`refresh_session`) performs the external
refresh directly.  The count of external `auth.refresh_session` calls is
threaded through the state. -/

/-- Python `int()` on a rational: truncation toward zero. -/
def pyInt (q : ℚ) : Int := if 0 ≤ q then Int.floor q else Int.ceil q

/-- Result of `admin_client.auth.get_user(token)`: an exception (carrying
whatever the client raised), a falsy response/user, or the user. -/
inductive GetUserResult where
  | exc (e : PyExc)
  | falsy
  | ok (id email : String)

structure HttpEnv where
  getUser : String → GetUserResult
  refreshTok : String → RefreshResult
  now : ℚ

structure HttpState where
  lastRefreshTime : List (String × ℚ)
  refreshCalls : Nat
deriving DecidableEq, Repr

def REFRESH_COOLDOWN_SECONDS : ℚ := 5

/-- The 429 detail string built by the handler: the words "Please wait",
then REFRESH_COOLDOWN_SECONDS minus the truncated elapsed time, then
"seconds before refreshing". -/
def detail429 (n : Int) : String :=
  "Please wait " ++ toString n ++ " seconds before refreshing"

/-- Model of `_extract_token_from_request`: the `access_token` cookie first, then the
bearer token of the `Authorization` header. -/
def extractToken (cookie_token bearer_token : Option String) : Option String :=
  if pyTruthy cookie_token then cookie_token else bearer_token

/-- What a route sees of a successfully resolved user: id, email, token. -/
structure CurrentUser where
  id : String
  email : String
  token : String
deriving DecidableEq, Repr

/-- The external-refresh tail of `get_current_user`
(src/backend/app/api/auth_utils.py lines 155-193): count the external call,
and on success record the refresh time, set cookies and return the refreshed
user; any failure — including the 401 raised for a falsy refresh response,
which the inner `except Exception` catches — ends in the generic 401. -/
def getCurrentUserRefresh (env : HttpEnv) (st : HttpState)
    (refresh_token user_key : String) :
    Except PyExc CurrentUser × HttpState × Option (String × String) :=
  match env.refreshTok refresh_token with
  | RefreshResult.exc =>
    (Except.error (PyExc.httpException 401 "Authentication failed"),
     { st with refreshCalls := st.refreshCalls + 1 }, none)
  | RefreshResult.noSession =>
    (Except.error (PyExc.httpException 401 "Authentication failed"),
     { st with refreshCalls := st.refreshCalls + 1 }, none)
  | RefreshResult.ok access_token refresh_token2 _ uid uemail =>
    (Except.ok ⟨uid, uemail, access_token⟩,
     ⟨(user_key, env.now) :: st.lastRefreshTime.filter (fun kv => kv.1 != user_key),
      st.refreshCalls + 1⟩,
     some (access_token, refresh_token2))

/-- The token-expired branch of `get_current_user`
(src/backend/app/api/auth_utils.py lines 134-193): require a refresh cookie,
check the per-token-prefix cooldown — rejecting with 429 and the
"wait N seconds" detail, before any external call — then refresh. -/
def getCurrentUserExpired (env : HttpEnv) (st : HttpState)
    (cookie_refresh : Option String) :
    Except PyExc CurrentUser × HttpState × Option (String × String) :=
  if ¬ pyTruthy cookie_refresh then
    (Except.error (PyExc.httpException 401
      "Token expired and no refresh token available"), st, none)
  else
    match List.lookup ((cookie_refresh.getD "").take 20) st.lastRefreshTime with
    | some t0 =>
      if env.now - t0 < REFRESH_COOLDOWN_SECONDS then
        (Except.error (PyExc.httpException 429
          (detail429 (5 - pyInt (env.now - t0)))), st, none)
      else
        getCurrentUserRefresh env st (cookie_refresh.getD "")
          ((cookie_refresh.getD "").take 20)
    | none =>
      getCurrentUserRefresh env st (cookie_refresh.getD "")
        ((cookie_refresh.getD "").take 20)

/-- Embedding of `get_current_user` (src/backend/app/api/auth_utils.py lines 92-193).
Both an exception from `auth.get_user` and a falsy response reach the
refresh path (the 401 raised for a falsy response is itself caught by the
surrounding `except Exception`).  Output: the result, the new state, and
the cookie pair set on the response (if any). -/
def get_current_user (env : HttpEnv) (st : HttpState)
    (cookie_access cookie_refresh bearer : Option String) :
    Except PyExc CurrentUser × HttpState × Option (String × String) :=
  if ¬ pyTruthy (extractToken cookie_access bearer) then
    (Except.error (PyExc.httpException 401 "Not authenticated"), st, none)
  else
    match env.getUser ((extractToken cookie_access bearer).getD "") with
    | GetUserResult.ok uid uemail =>
      (Except.ok ⟨uid, uemail, (extractToken cookie_access bearer).getD ""⟩, st, none)
    | _ => getCurrentUserExpired env st cookie_refresh

/-- The `POST /auth/refresh` handler `refresh_session`
(src/backend/app/api/routes/auth.py lines 347-397): no cooldown check of any
kind; every request with a truthy `refresh_token` cookie performs the
external refresh call.  Returns the new `expiresAt` epoch-milliseconds value
and the cookie pair set. -/
def refresh_session_route (env : HttpEnv) (st : HttpState)
    (cookie_refresh : Option String) :
    Except PyExc Int × HttpState × Option (String × String) :=
  if ¬ pyTruthy cookie_refresh then
    (Except.error (PyExc.httpException 401 "No refresh token available"), st, none)
  else
    let refresh_token := cookie_refresh.getD ""
    let st1 : HttpState := { st with refreshCalls := st.refreshCalls + 1 }
    match env.refreshTok refresh_token with
    | RefreshResult.exc =>
      (Except.error (PyExc.httpException 401 "Refresh failed"), st1, none)
    | RefreshResult.noSession =>
      (Except.error (PyExc.httpException 401 "Failed to refresh session"), st1, none)
    | RefreshResult.ok access_token refresh_token2 expires_in _ _ =>
      (Except.ok (pyInt ((env.now + pyOrNum expires_in 3600) * 1000)), st1,
       some (access_token, refresh_token2))

/-! ## The `POST /auth/logout` handler (src/backend/app/api/routes/auth.py
lines 287-344) -/

/-- Python tuple unpacking `x, y = t`: succeeds only when `t` has exactly two
elements, otherwise raises `ValueError`. -/
def unpack2 (t : List String) : Except PyExc (String × String) :=
  match t with
  | [x, y] => Except.ok (x, y)
  | _ => Except.error (PyExc.valueError "too many values to unpack (expected 2)")

/-- Outcome of `admin_client.auth.sign_out(token)`. -/
inductive SignOutResult where
  | exc
  | ok

structure LogoutEnv where
  getUser : String → GetUserResult
  signOut : String → SignOutResult
  fer : Option FernetModel
  db : String → DbFetch
  agentSignIn : String → String → SignInResult

structure LogoutState where
  agentSignInCalls : Nat
deriving DecidableEq, Repr

/-- What the handler produced: the response body message, whether each auth
cookie was cleared, and the exception (if any) swallowed by the outer
best-effort `except Exception` block. -/
structure LogoutOutcome where
  message : String
  access_cookie_cleared : Bool
  refresh_cookie_cleared : Bool
  swallowed : Option PyExc
deriving DecidableEq, Repr

/-- Embedding of `logout`: both cookies are cleared before anything can fail; the whole
token-revocation block is best-effort.  When `get_agent_credentials` returns
a (three-element) credential tuple, the assignment
`agent_email, agent_password = agent_creds` unpacks it into two names and
raises `ValueError` before any agent sign-in; the outer handler swallows it
and the success response is returned regardless. -/
def logoutAgentBestEffort (env : LogoutEnv) (st : LogoutState) (uid : String) :
    LogoutOutcome × LogoutState :=
  -- sign_out(access_token) sits in its own try/except and cannot escape
  match get_agent_credentials env.fer env.db uid with
  | Except.error e => (⟨"Logged out successfully", true, true, some e⟩, st)
  | Except.ok none => (⟨"Logged out successfully", true, true, none⟩, st)
  | Except.ok (some creds) =>
    match unpack2 [creds.1, creds.2.1, creds.2.2] with
    | Except.error e => (⟨"Logged out successfully", true, true, some e⟩, st)
    | Except.ok (agent_email, agent_password) =>
      -- unreachable for a three-element tuple; transcribed for fidelity:
      -- the agent sign-in/sign-out pair is best-effort and swallowed
      match env.agentSignIn agent_email agent_password with
      | _ => (⟨"Logged out successfully", true, true, none⟩,
              { st with agentSignInCalls := st.agentSignInCalls + 1 })

def logout (env : LogoutEnv) (st : LogoutState) (cookie_access : Option String) :
    LogoutOutcome × LogoutState :=
  if ¬ pyTruthy cookie_access then
    (⟨"Logged out successfully", true, true, none⟩, st)
  else
    match env.getUser (cookie_access.getD "") with
    | GetUserResult.exc e => (⟨"Logged out successfully", true, true, some e⟩, st)
    | GetUserResult.falsy => (⟨"Logged out successfully", true, true, none⟩, st)
    | GetUserResult.ok uid _ => logoutAgentBestEffort env st uid

/-! ## Claim C1 -/

/-- Environment for exercising a failing authentication: session cache empty,
no credentials row. -/
def envC1 : AgentAuthEnv :=
  { fer := none, db := fun _ => DbFetch.data none,
    signIn := fun _ _ => SignInResult.exc, refreshTok := fun _ => RefreshResult.exc,
    now := 0 }

/-- C1: the claim says every failure of the agent authentication and
credential subsystem surfaces as an `APIError` with a stable code and the
documented status, never an exception of another type.  The code disagrees:
every `raise APIError(...)` site in the subsystem passes the unknown keyword
`error_code` and omits the mandatory `code` parameter, so the constructor
call itself raises `TypeError`; consequently every error any of these
functions can produce is that `TypeError`, and an `APIError` is never
raised. -/
theorem C1_agent_failures_raise_typeerror (env : AgentAuthEnv) (st : AgentAuthState)
    (user_id : String) (fer : Option FernetModel) (s : String) :
    (∀ e, (authenticate_agent_user env st user_id).1 = Except.error e →
      e = PyExc.typeError kwargTypeErrorMsg) ∧
    (∀ e, (refresh_agent_session env st user_id).1 = Except.error e →
      e = PyExc.typeError kwargTypeErrorMsg) ∧
    (∀ e, decrypt_password fer s = Except.error e →
      e = PyExc.typeError kwargTypeErrorMsg) ∧
    (∀ e, get_agent_credentials fer (fun _ => DbFetch.exc) user_id = Except.error e →
      e = PyExc.typeError kwargTypeErrorMsg) :=
  ⟨fun e => authenticate_agent_user_error env st user_id e,
   fun e => refresh_agent_session_error env st user_id e,
   fun e => decrypt_password_error fer s e,
   fun e => get_agent_credentials_error fer (fun _ => DbFetch.exc) user_id e⟩

theorem C1_witness :
    (authenticate_agent_user envC1 ⟨[], 0⟩ "user-1").1 =
        Except.error (PyExc.typeError kwargTypeErrorMsg) ∧
    PyExc.typeError kwargTypeErrorMsg = PyExc.typeError kwargTypeErrorMsg :=
  ⟨rfl,
   (C1_agent_failures_raise_typeerror envC1 ⟨[], 0⟩ "user-1" none "x").1
     (PyExc.typeError kwargTypeErrorMsg) rfl⟩

/-! ## Claim C2 -/

/-- Environment for the cache-hit boundary: the clock reads 1000 and every
external call would fail, so any successful result can only come from the
cache. -/
def envC2 : AgentAuthEnv :=
  { fer := none, db := fun _ => DbFetch.exc,
    signIn := fun _ _ => SignInResult.exc, refreshTok := fun _ => RefreshResult.exc,
    now := 1000 }

/-- A cached session expiring one second after `envC2.now`. -/
def sessC2 : SessionData := ⟨"tok-A", "ref-A", 1001, "agent-1"⟩

def stC2 : AgentAuthState := ⟨[("user-1", sessC2)], 0⟩

/-- Result of `authAfterCacheMiss` is never the unchanged pair
`(ok cs, st)`: its error branches return an `Except.error`, and its success
branch increments the sign-in counter. -/
theorem authAfterCacheMiss_ne (env : AgentAuthEnv) (st : AgentAuthState)
    (user_id : String) (cs : SessionData) :
    authAfterCacheMiss env st user_id ≠ (Except.ok cs, st) := by
  unfold authAfterCacheMiss
  split
  · intro h
    cases congrArg Prod.fst h
  · intro h
    cases congrArg Prod.fst h
  · split
    · intro h
      cases congrArg Prod.fst h
    · intro h
      cases congrArg Prod.fst h
    · intro h
      have h2 := congrArg (fun p => p.2.signInCalls) h
      simp at h2

/-- C2 counterexample: with the session cache holding an entry whose
`expires_at` lies one second in the future — strictly inside any positive
safety margin, let alone five minutes — `authenticate_agent_user` returns
the cached entry as-is: no re-authentication, no external sign-in, state
untouched.  This refutes the claim that an entry within the safety margin
triggers re-authentication. -/
theorem C2_counterexample :
    sessC2.expires_at - envC2.now = 1 ∧
    sessC2.expires_at - envC2.now < 300 ∧
    authenticate_agent_user envC2 stC2 "user-1" = (Except.ok sessC2, stC2) :=
  ⟨by norm_num [sessC2, envC2], by norm_num [sessC2, envC2], rfl⟩

/-- C2 (amended): the safety margin in the code is zero, not five minutes —
`authenticate_agent_user` returns the cached session unchanged exactly when
its `expires_at` is strictly later than the current time; at or before the
current time it re-authenticates. -/
theorem C2_cache_hit_iff (env : AgentAuthEnv) (st : AgentAuthState)
    (user_id : String) (cs : SessionData)
    (hc : List.lookup user_id st.sessions = some cs) :
    authenticate_agent_user env st user_id = (Except.ok cs, st) ↔
      env.now < cs.expires_at := by
  unfold authenticate_agent_user
  rw [hc]
  show (if env.now < cs.expires_at then (Except.ok cs, st)
      else authAfterCacheMiss env st user_id) = (Except.ok cs, st) ↔
    env.now < cs.expires_at
  constructor
  · intro h
    by_contra hn
    rw [if_neg hn] at h
    exact authAfterCacheMiss_ne env st user_id cs h
  · intro h
    rw [if_pos h]

theorem C2_witness :
    envC2.now < sessC2.expires_at ∧
    authenticate_agent_user envC2 stC2 "user-1" = (Except.ok sessC2, stC2) :=
  ⟨by norm_num [sessC2, envC2],
   (C2_cache_hit_iff envC2 stC2 "user-1" sessC2 rfl).mpr (by norm_num [sessC2, envC2])⟩

/-! ## Claim C4 -/

def envC4 : AgentAuthEnv :=
  { fer := none, db := fun _ => DbFetch.data none,
    signIn := fun _ _ => SignInResult.exc, refreshTok := fun _ => RefreshResult.exc,
    now := 0 }

/-- C4: the claim says that with an empty cache and no (or incomplete)
stored credentials, resolve fails with the `AGENT_CREDENTIALS_NOT_FOUND`
`APIError` (status 404) without attempting an external sign-in.  The code
indeed attempts no sign-in (the state is returned untouched), but the
`raise APIError(..., error_code="AGENT_CREDENTIALS_NOT_FOUND")` statement
itself raises `TypeError`, which the outer handler then replaces with
another such `TypeError`; no `APIError` ever reaches the caller. -/
theorem C4_missing_credentials (env : AgentAuthEnv) (st : AgentAuthState)
    (user_id : String)
    (hmiss : List.lookup user_id st.sessions = none)
    (hdb : env.db user_id = DbFetch.data none) :
    authenticate_agent_user env st user_id =
      (Except.error (PyExc.typeError kwargTypeErrorMsg), st) := by
  unfold authenticate_agent_user
  rw [hmiss]
  unfold authAfterCacheMiss get_agent_credentials
  rw [hdb]
  rfl

theorem C4_witness :
    authenticate_agent_user envC4 ⟨[], 0⟩ "user-1" =
      (Except.error (PyExc.typeError kwargTypeErrorMsg), ⟨[], 0⟩) :=
  C4_missing_credentials envC4 ⟨[], 0⟩ "user-1" rfl rfl

/-! ## Claims C3 and C6 -/

/-- The full success path of the cache-miss branch: complete row, successful
decryption, successful external sign-in — one sign-in call, and the fresh
session is cached under the user id. -/
theorem authAfterCacheMiss_success (env : AgentAuthEnv) (st : AgentAuthState)
    (user_id : String) (row : ProfileRow) (pw atk rtk : String) (ei : Option ℚ)
    (hdb : env.db user_id = DbFetch.data (some row))
    (ht1 : pyTruthy row.agent_user_id = true)
    (ht2 : pyTruthy row.agent_credentials_encrypted = true)
    (hdec : decrypt_password env.fer (row.agent_credentials_encrypted.getD "") =
      Except.ok pw)
    (hsi : env.signIn (generate_agent_email user_id) pw =
      SignInResult.ok atk rtk ei) :
    authAfterCacheMiss env st user_id =
      (Except.ok ⟨atk, rtk, env.now + pyOrNum ei 3600, row.agent_user_id.getD ""⟩,
       ⟨dictSet st.sessions user_id
          ⟨atk, rtk, env.now + pyOrNum ei 3600, row.agent_user_id.getD ""⟩,
        st.signInCalls + 1⟩) := by
  unfold authAfterCacheMiss get_agent_credentials
  rw [hdb]
  simp only [ht1, ht2, Bool.and_self, if_true, hdec, hsi]

/-- C3: when a cached session exists and the refresh-token exchange fails —
by exception or by returning no session — the cache entry is evicted, a full
re-authentication runs, and the newly authenticated session is returned;
the refresh failure itself never reaches the caller. -/
theorem C3_refresh_failure_falls_back (env : AgentAuthEnv) (st : AgentAuthState)
    (user_id : String) (cs : SessionData) (row : ProfileRow)
    (pw atk rtk : String) (ei : Option ℚ)
    (hc : List.lookup user_id st.sessions = some cs)
    (hrf : env.refreshTok cs.refresh_token = RefreshResult.exc ∨
           env.refreshTok cs.refresh_token = RefreshResult.noSession)
    (hdb : env.db user_id = DbFetch.data (some row))
    (ht1 : pyTruthy row.agent_user_id = true)
    (ht2 : pyTruthy row.agent_credentials_encrypted = true)
    (hdec : decrypt_password env.fer (row.agent_credentials_encrypted.getD "") =
      Except.ok pw)
    (hsi : env.signIn (generate_agent_email user_id) pw =
      SignInResult.ok atk rtk ei) :
    refresh_agent_session env st user_id =
      (Except.ok ⟨atk, rtk, env.now + pyOrNum ei 3600, row.agent_user_id.getD ""⟩,
       ⟨dictSet (dictDel st.sessions user_id) user_id
          ⟨atk, rtk, env.now + pyOrNum ei 3600, row.agent_user_id.getD ""⟩,
        st.signInCalls + 1⟩) := by
  have hauth := authAfterCacheMiss_success env
    { st with sessions := dictDel st.sessions user_id } user_id row pw atk rtk ei
    hdb ht1 ht2 hdec hsi
  have hfull : authenticate_agent_user env
      { st with sessions := dictDel st.sessions user_id } user_id =
      (Except.ok ⟨atk, rtk, env.now + pyOrNum ei 3600, row.agent_user_id.getD ""⟩,
       ⟨dictSet (dictDel st.sessions user_id) user_id
          ⟨atk, rtk, env.now + pyOrNum ei 3600, row.agent_user_id.getD ""⟩,
        st.signInCalls + 1⟩) := by
    unfold authenticate_agent_user
    rw [show List.lookup user_id
        ({ st with sessions := dictDel st.sessions user_id } : AgentAuthState).sessions =
        none from lookup_dictDel st.sessions user_id]
    exact hauth
  unfold refresh_agent_session
  rcases hrf with hrf | hrf
  · simp only [hc, hrf]
    rw [hfull]
    rfl
  · simp only [hc, hrf]
    rw [hfull]
    rfl

/-- Environment for the C3 witness: refresh always raises, credentials are
present and decrypt under the toy cipher, sign-in succeeds with a 60-second
expiry. -/
def ctC3 : String :=
  match encrypt_password (some toyFernet) "a" with
  | Except.ok c => c
  | _ => ""

def envC3 : AgentAuthEnv :=
  { fer := some toyFernet,
    db := fun _ => DbFetch.data (some ⟨some "agent-7", some ctC3⟩),
    signIn := fun _ _ => SignInResult.ok "new-at" "new-rt" (some 60),
    refreshTok := fun _ => RefreshResult.exc,
    now := 50 }

def stC3 : AgentAuthState := ⟨[("u1", ⟨"old-at", "old-rt", 10, "agent-7"⟩)], 0⟩

set_option maxRecDepth 16000 in
theorem C3_witness :
    refresh_agent_session envC3 stC3 "u1" =
      (Except.ok ⟨"new-at", "new-rt", envC3.now + pyOrNum (some 60) 3600, "agent-7"⟩,
       ⟨dictSet (dictDel stC3.sessions "u1") "u1"
          ⟨"new-at", "new-rt", envC3.now + pyOrNum (some 60) 3600, "agent-7"⟩,
        1⟩) :=
  C3_refresh_failure_falls_back envC3 stC3 "u1"
    ⟨"old-at", "old-rt", 10, "agent-7"⟩ ⟨some "agent-7", some ctC3⟩ "a"
    "new-at" "new-rt" (some 60) rfl (Or.inl rfl) rfl rfl rfl rfl rfl

/-- C6: with an empty cache slot and provisioned, decryptable credentials,
two back-to-back resolve calls (no time passing) perform exactly one
external sign-in — the counter rises from `st.signInCalls` to
`st.signInCalls + 1` after the first call and stays there — and both calls
return the same session, hence the same access token. -/
theorem C6_double_resolve_single_signin (env : AgentAuthEnv) (st : AgentAuthState)
    (user_id : String) (row : ProfileRow) (pw atk rtk : String) (ei : Option ℚ)
    (hmiss : List.lookup user_id st.sessions = none)
    (hdb : env.db user_id = DbFetch.data (some row))
    (ht1 : pyTruthy row.agent_user_id = true)
    (ht2 : pyTruthy row.agent_credentials_encrypted = true)
    (hdec : decrypt_password env.fer (row.agent_credentials_encrypted.getD "") =
      Except.ok pw)
    (hsi : env.signIn (generate_agent_email user_id) pw =
      SignInResult.ok atk rtk ei)
    (hei : 0 < pyOrNum ei 3600) :
    authenticate_agent_user env st user_id =
      (Except.ok ⟨atk, rtk, env.now + pyOrNum ei 3600, row.agent_user_id.getD ""⟩,
       ⟨dictSet st.sessions user_id
          ⟨atk, rtk, env.now + pyOrNum ei 3600, row.agent_user_id.getD ""⟩,
        st.signInCalls + 1⟩) ∧
    authenticate_agent_user env
      ⟨dictSet st.sessions user_id
         ⟨atk, rtk, env.now + pyOrNum ei 3600, row.agent_user_id.getD ""⟩,
       st.signInCalls + 1⟩ user_id =
      (Except.ok ⟨atk, rtk, env.now + pyOrNum ei 3600, row.agent_user_id.getD ""⟩,
       ⟨dictSet st.sessions user_id
          ⟨atk, rtk, env.now + pyOrNum ei 3600, row.agent_user_id.getD ""⟩,
        st.signInCalls + 1⟩) := by
  constructor
  · unfold authenticate_agent_user
    rw [hmiss]
    exact authAfterCacheMiss_success env st user_id row pw atk rtk ei
      hdb ht1 ht2 hdec hsi
  · unfold authenticate_agent_user
    simp only [lookup_dictSet]
    rw [if_pos (show env.now < env.now + pyOrNum ei 3600 from
      lt_add_of_pos_right env.now hei)]

def ctC6 : String :=
  match encrypt_password (some toyFernet) "b" with
  | Except.ok c => c
  | _ => ""

def envC6 : AgentAuthEnv :=
  { fer := some toyFernet,
    db := fun _ => DbFetch.data (some ⟨some "agent-9", some ctC6⟩),
    signIn := fun _ _ => SignInResult.ok "at-1" "rt-1" (some 3600),
    refreshTok := fun _ => RefreshResult.exc,
    now := 100 }

set_option maxRecDepth 16000 in
theorem C6_witness :
    authenticate_agent_user envC6 ⟨[], 0⟩ "u2" =
      (Except.ok ⟨"at-1", "rt-1", envC6.now + pyOrNum (some 3600) 3600, "agent-9"⟩,
       ⟨dictSet [] "u2" ⟨"at-1", "rt-1", envC6.now + pyOrNum (some 3600) 3600, "agent-9"⟩,
        1⟩) ∧
    authenticate_agent_user envC6
      ⟨dictSet [] "u2" ⟨"at-1", "rt-1", envC6.now + pyOrNum (some 3600) 3600, "agent-9"⟩,
       1⟩ "u2" =
      (Except.ok ⟨"at-1", "rt-1", envC6.now + pyOrNum (some 3600) 3600, "agent-9"⟩,
       ⟨dictSet [] "u2" ⟨"at-1", "rt-1", envC6.now + pyOrNum (some 3600) 3600, "agent-9"⟩,
        1⟩) :=
  C6_double_resolve_single_signin envC6 ⟨[], 0⟩ "u2" ⟨some "agent-9", some ctC6⟩
    "b" "at-1" "rt-1" (some 3600) rfl rfl rfl rfl rfl rfl (by norm_num [pyOrNum])

/-! ## Claim C5 -/

theorem get_agent_credentials_exc (fer : Option FernetModel) (db : String → DbFetch)
    (user_id : String) (hdb : db user_id = DbFetch.exc) :
    get_agent_credentials fer db user_id =
      Except.error (PyExc.typeError kwargTypeErrorMsg) := by
  unfold get_agent_credentials
  rw [hdb]
  rfl

theorem get_agent_credentials_nodata (fer : Option FernetModel) (db : String → DbFetch)
    (user_id : String) (hdb : db user_id = DbFetch.data none) :
    get_agent_credentials fer db user_id = Except.ok none := by
  unfold get_agent_credentials
  rw [hdb]

theorem get_agent_credentials_row (fer : Option FernetModel) (db : String → DbFetch)
    (user_id : String) (row : ProfileRow)
    (hdb : db user_id = DbFetch.data (some row)) :
    get_agent_credentials fer db user_id =
      (if (pyTruthy row.agent_user_id && pyTruthy row.agent_credentials_encrypted) = true then
        match decrypt_password fer (row.agent_credentials_encrypted.getD "") with
        | Except.error e =>
          Except.error (wrapNonAPIError e "Failed to retrieve agent credentials" 500
            "AGENT_CREDENTIALS_RETRIEVE_ERROR")
        | Except.ok pw =>
          Except.ok (some (row.agent_user_id.getD "", generate_agent_email user_id, pw))
      else Except.ok none) := by
  unfold get_agent_credentials
  rw [hdb]

theorem encrypt_password_some (F : FernetModel) (password : String) :
    encrypt_password (some F) password =
      (match utf8Decode (F.enc (utf8Encode password)) with
      | some ct => Except.ok ct
      | none =>
        Except.error (raiseAgentAPIError "Password encryption failed" 500
          "ENCRYPTION_ERROR")) := rfl

theorem decrypt_password_some (F : FernetModel) (encrypted : String) :
    decrypt_password (some F) encrypted =
      (match F.dec (utf8Encode encrypted) with
      | none =>
        Except.error (raiseAgentAPIError "Password decryption failed: Invalid credentials"
          500 "DECRYPTION_INVALID_TOKEN")
      | some pt =>
        match utf8Decode pt with
        | some pw => Except.ok pw
        | none =>
          Except.error (raiseAgentAPIError "Password decryption failed" 500
            "DECRYPTION_ERROR")) := rfl

theorem decrypt_password_dec_some (F : FernetModel) (encrypted : String) (pt : List Nat)
    (hdec : F.dec (utf8Encode encrypted) = some pt) :
    decrypt_password (some F) encrypted =
      (match utf8Decode pt with
      | some pw => Except.ok pw
      | none =>
        Except.error (raiseAgentAPIError "Password decryption failed" 500
          "DECRYPTION_ERROR")) := by
  rw [decrypt_password_some, hdec]

theorem decrypt_password_dec_none (F : FernetModel) (encrypted : String)
    (hdec : F.dec (utf8Encode encrypted) = none) :
    decrypt_password (some F) encrypted =
      Except.error (PyExc.typeError kwargTypeErrorMsg) := by
  rw [decrypt_password_some, hdec]
  rfl

/-- From a successful `encrypt_password` call, the decoded token. -/
theorem encrypt_password_ok (F : FernetModel) (p ct : String)
    (henc : encrypt_password (some F) p = Except.ok ct) :
    utf8Decode (F.enc (utf8Encode p)) = some ct := by
  rw [encrypt_password_some] at henc
  cases hdec : utf8Decode (F.enc (utf8Encode p)) with
  | none =>
    rw [hdec] at henc
    exact absurd henc (fun h => Except.noConfusion h)
  | some s =>
    rw [hdec] at henc
    have h2 : (Except.ok s : Except PyExc String) = Except.ok ct := henc
    rw [Except.ok.injEq] at h2
    rw [h2]

/-- C5: the claim says retrieval returns the NotFound outcome (`None`)
exactly when the row is absent or incomplete, while a present-but-
undecryptable ciphertext raises the distinct `DECRYPTION_INVALID_TOKEN`
error.  The first half holds (the iff below).  The second half fails: the
`raise APIError(..., error_code="DECRYPTION_INVALID_TOKEN")` statement in
`decrypt_password` raises `TypeError`, which `get_agent_credentials`
then — since it is not an `APIError` — funnels through its own generic
`AGENT_CREDENTIALS_RETRIEVE_ERROR` constructor call, producing the same
indistinct `TypeError`; the distinct domain error is never surfaced. -/
theorem C5_retrieve_outcomes (fer : Option FernetModel) (db : String → DbFetch)
    (user_id : String) :
    (get_agent_credentials fer db user_id = Except.ok none ↔
      (db user_id = DbFetch.data none ∨
       ∃ row, db user_id = DbFetch.data (some row) ∧
         (pyTruthy row.agent_user_id = false ∨
          pyTruthy row.agent_credentials_encrypted = false))) ∧
    (∀ row e, db user_id = DbFetch.data (some row) →
      pyTruthy row.agent_user_id = true →
      pyTruthy row.agent_credentials_encrypted = true →
      decrypt_password fer (row.agent_credentials_encrypted.getD "") =
        Except.error e →
      get_agent_credentials fer db user_id =
        Except.error (PyExc.typeError kwargTypeErrorMsg)) := by
  constructor
  · cases hdb : db user_id with
    | exc =>
      rw [get_agent_credentials_exc fer db user_id hdb]
      constructor
      · intro h; exact absurd h (fun h => Except.noConfusion h)
      · rintro (h | ⟨row, h, _⟩) <;> simp at h
    | data orow =>
      cases orow with
      | none =>
        rw [get_agent_credentials_nodata fer db user_id hdb]
        simp
      | some row =>
        rw [get_agent_credentials_row fer db user_id row hdb]
        by_cases ht : (pyTruthy row.agent_user_id &&
            pyTruthy row.agent_credentials_encrypted) = true
        · rw [if_pos ht]
          rcases Bool.and_eq_true_iff.mp ht with ⟨ht1, ht2⟩
          cases hdec : decrypt_password fer (row.agent_credentials_encrypted.getD "") with
          | error e =>
            constructor
            · intro h; exact absurd h (fun h => Except.noConfusion h)
            · rintro (h | ⟨row2, h, hfalsy⟩)
              · simp at h
              · simp only [DbFetch.data.injEq, Option.some.injEq] at h
                subst h
                rcases hfalsy with hf | hf
                · rw [ht1] at hf; cases hf
                · rw [ht2] at hf; cases hf
          | ok pw =>
            constructor
            · intro h
              simp at h
            · rintro (h | ⟨row2, h, hfalsy⟩)
              · simp at h
              · simp only [DbFetch.data.injEq, Option.some.injEq] at h
                subst h
                rcases hfalsy with hf | hf
                · rw [ht1] at hf; cases hf
                · rw [ht2] at hf; cases hf
        · rw [if_neg ht]
          constructor
          · intro _
            right
            refine ⟨row, rfl, ?_⟩
            rcases Bool.and_eq_false_iff.mp (Bool.not_eq_true _ |>.mp ht) with hf | hf
            · left; exact hf
            · right; exact hf
          · intro _; rfl
  · intro row e hdb ht1 ht2 hdec
    rw [get_agent_credentials_row fer db user_id row hdb,
      if_pos (by rw [ht1, ht2]; rfl), hdec]
    show Except.error (wrapNonAPIError e "Failed to retrieve agent credentials" 500
        "AGENT_CREDENTIALS_RETRIEVE_ERROR") =
      Except.error (PyExc.typeError kwargTypeErrorMsg)
    rw [wrapNonAPIError_eq _ _ _ _ (by
      rw [decrypt_password_error fer _ e hdec]; rfl)]

/-- A row whose ciphertext is not a valid token of the toy cipher. -/
def rowC5 : ProfileRow := ⟨some "agent-5", some "zz"⟩

theorem C5_witness :
    get_agent_credentials (some toyFernet) (fun _ => DbFetch.data none) "u5" =
      Except.ok none ∧
    get_agent_credentials (some toyFernet) (fun _ => DbFetch.data (some rowC5)) "u5" =
      Except.error (PyExc.typeError kwargTypeErrorMsg) :=
  ⟨(C5_retrieve_outcomes (some toyFernet) (fun _ => DbFetch.data none) "u5").1.mpr
     (Or.inl rfl),
   (C5_retrieve_outcomes (some toyFernet) (fun _ => DbFetch.data (some rowC5)) "u5").2
     rowC5 (PyExc.typeError kwargTypeErrorMsg) rfl rfl rfl rfl⟩

/-! ## Claim C7 -/

/-- C7: round-trip — for every printable-ASCII password of at most the
generated length (43 characters for a 32-byte urlsafe token),
`decrypt_password (encrypt_password p) = p` under a configured valid key
(any cipher satisfying the Fernet contract). -/
theorem C7_roundtrip (F : FernetModel) (p ct : String)
    (hascii : ∀ c ∈ p.data, 32 ≤ c.toNat ∧ c.toNat ≤ 126)
    (hlen : p.length ≤ 43)
    (henc : encrypt_password (some F) p = Except.ok ct) :
    decrypt_password (some F) ct = Except.ok p := by
  have hd : utf8Decode (F.enc (utf8Encode p)) = some ct :=
    encrypt_password_ok F p ct henc
  have hct : utf8Encode ct = F.enc (utf8Encode p) :=
    utf8Encode_utf8Decode _ _ hd
  rw [decrypt_password_dec_some F ct (utf8Encode p) (by rw [hct, F.dec_enc])]
  rw [utf8Decode_utf8Encode p (fun c hc => by
    have := hascii c hc
    omega)]

def ctC7 : String :=
  match encrypt_password (some toyFernet) "ab" with
  | Except.ok c => c
  | _ => ""

set_option maxRecDepth 16000 in
theorem C7_witness : decrypt_password (some toyFernet) ctC7 = Except.ok "ab" :=
  C7_roundtrip toyFernet "ab" ctC7 (by decide) (by decide) rfl

/-! ## Claim C8 -/

/-- C8: the claim says one-byte corruption of a ciphertext makes
`decrypt_password` fail with the `DECRYPTION_INVALID_TOKEN` `APIError` and
never return any plaintext.  Decryption of the corrupted token does always
fail (the Fernet authentication rejects it, and no plaintext — neither `p`
nor any other — is ever returned), but the raised exception is the
`TypeError` from the malformed `APIError(..., error_code=...)` call, not the
documented domain error. -/
theorem C8_corrupt_decrypt_fails (F : FernetModel) (p ct : String) (i b : Nat)
    (henc : encrypt_password (some F) p = Except.ok ct)
    (hb : b < 128)
    (hi : i < (utf8Encode ct).length)
    (hne : b ≠ (utf8Encode ct).get ⟨i, hi⟩) :
    decrypt_password (some F) (corruptByte ct i b) =
      Except.error (PyExc.typeError kwargTypeErrorMsg) := by
  have hd : utf8Decode (F.enc (utf8Encode p)) = some ct :=
    encrypt_password_ok F p ct henc
  have hct : utf8Encode ct = F.enc (utf8Encode p) :=
    utf8Encode_utf8Decode _ _ hd
  have hall : ∀ x ∈ (utf8Encode ct).set i b, x < 128 := by
    intro x hx
    rcases List.mem_or_eq_of_mem_set hx with hx | rfl
    · rw [hct] at hx
      exact F.enc_ascii _ x hx
    · exact hb
  have henc2 : utf8Encode (corruptByte ct i b) = (utf8Encode ct).set i b := by
    unfold corruptByte
    rw [show utf8Encode (String.mk (((utf8Encode ct).set i b).map Char.ofNat)) =
      (((utf8Encode ct).set i b).map Char.ofNat).map Char.toNat from rfl]
    rw [List.map_map]
    calc ((utf8Encode ct).set i b).map (Char.toNat ∘ Char.ofNat)
        = ((utf8Encode ct).set i b).map id := by
          apply List.map_congr_left
          intro x hx
          exact toNat_ofNat_of_lt (hall x hx)
      _ = (utf8Encode ct).set i b := List.map_id _
  have hi2 : i < (F.enc (utf8Encode p)).length := by rw [← hct]; exact hi
  have hne2 : b ≠ (F.enc (utf8Encode p)).get ⟨i, hi2⟩ := by
    intro hb2
    apply hne
    rw [List.get_of_eq hct ⟨i, hi⟩]
    exact hb2
  have hdecnone : F.dec ((utf8Encode ct).set i b) = none := by
    rw [hct]
    exact F.dec_corrupt (utf8Encode p) i b hi2 hne2
  exact decrypt_password_dec_none F (corruptByte ct i b) (by rw [henc2]; exact hdecnone)

def ctC8 : String :=
  match encrypt_password (some toyFernet) "a" with
  | Except.ok c => c
  | _ => ""

set_option maxRecDepth 16000 in
theorem C8_witness :
    decrypt_password (some toyFernet) (corruptByte ctC8 0 0) =
      Except.error (PyExc.typeError kwargTypeErrorMsg) := by
  exact C8_corrupt_decrypt_fails toyFernet "a" ctC8 0 0 rfl (by decide) (by decide)
    (by decide)

/-! ## Claim C9 -/

/-- Cooldown rejection in the expired branch: a known token prefix refreshed
less than `REFRESH_COOLDOWN_SECONDS` ago is answered with the 429 and its
"wait N seconds" detail, before any external refresh call — the state, and
with it the external-call counter, is untouched. -/
theorem getCurrentUserExpired_cooldown (env : HttpEnv) (st : HttpState)
    (cookie_refresh : Option String) (t0 : ℚ)
    (hrt : pyTruthy cookie_refresh = true)
    (hlast : List.lookup ((cookie_refresh.getD "").take 20) st.lastRefreshTime =
      some t0)
    (hcool : env.now - t0 < REFRESH_COOLDOWN_SECONDS) :
    getCurrentUserExpired env st cookie_refresh =
      (Except.error (PyExc.httpException 429
        (detail429 (5 - pyInt (env.now - t0)))), st, none) := by
  unfold getCurrentUserExpired
  rw [if_neg (fun h => h hrt)]
  simp only [hlast]
  rw [if_pos hcool]

/-- Concrete two-call run against the explicit `POST /auth/refresh` handler:
same refresh-token cookie, one second apart. -/
def envC9a : HttpEnv :=
  { getUser := fun _ => GetUserResult.falsy,
    refreshTok := fun _ => RefreshResult.ok "at-2" "rt-2" (some 3600) "u9" "u9@x",
    now := 10 }

def envC9b : HttpEnv := { envC9a with now := 11 }

def c9_first : Except PyExc Int × HttpState × Option (String × String) :=
  refresh_session_route envC9a ⟨[], 0⟩ (some "rt-0")

def c9_second : Except PyExc Int × HttpState × Option (String × String) :=
  refresh_session_route envC9b c9_first.2.1 (some "rt-0")

/-- C9 counterexample: the claim says two refresh-session requests with the
same refresh token within 5 seconds leave the second one rejected with a
"retry after N" signal and no second external refresh call.  The explicit
`POST /auth/refresh` handler — one of the two refresh entry points — has no
cooldown at all: one second after a successful refresh, a second request
with the same cookie succeeds (HTTP 200, a fresh `expiresAt`), and the
external refresh-call counter reaches 2. -/
theorem C9_counterexample :
    c9_first.2.1.refreshCalls = 1 ∧
    c9_second.1 = Except.ok 3611000 ∧
    c9_second.2.1.refreshCalls = 2 := by
  refine ⟨rfl, ?_, rfl⟩
  show Except.ok (pyInt ((envC9b.now + pyOrNum (some 3600) 3600) * 1000)) =
    Except.ok 3611000
  have h1 : (envC9b.now + pyOrNum (some 3600) 3600) * 1000 = (3611000 : ℚ) := by
    norm_num [envC9b, envC9a, pyOrNum]
  rw [h1]
  have h2 : pyInt 3611000 = 3611000 := by
    unfold pyInt
    rw [if_pos (by norm_num)]
    exact_mod_cast Int.floor_intCast 3611000
  rw [h2]

/-- C9 (amended): the 5-second per-token-prefix cooldown guards only the
automatic refresh inside `get_current_user`.  There, a second auto-refresh
attempt with the same refresh token within 5 seconds of a recorded refresh
is rejected with HTTP 429 advertising a wait of
`5 - int(elapsed)` seconds — strictly positive — and performs no external
refresh call.  The explicit `POST /auth/refresh` endpoint performs no
cooldown check (see the counterexample). -/
theorem C9_amended_cooldown (env : HttpEnv) (st : HttpState)
    (cookie_access cookie_refresh bearer : Option String) (t0 : ℚ)
    (htok : pyTruthy (extractToken cookie_access bearer) = true)
    (hgu : ∀ uid uemail,
      env.getUser ((extractToken cookie_access bearer).getD "") ≠
        GetUserResult.ok uid uemail)
    (hrt : pyTruthy cookie_refresh = true)
    (hlast : List.lookup ((cookie_refresh.getD "").take 20) st.lastRefreshTime =
      some t0)
    (h0 : 0 ≤ env.now - t0) (h5 : env.now - t0 < 5) :
    get_current_user env st cookie_access cookie_refresh bearer =
      (Except.error (PyExc.httpException 429
        (detail429 (5 - pyInt (env.now - t0)))), st, none) ∧
    0 < 5 - pyInt (env.now - t0) := by
  have hN : 0 < 5 - pyInt (env.now - t0) := by
    have hfl : pyInt (env.now - t0) = Int.floor (env.now - t0) := by
      unfold pyInt
      rw [if_pos h0]
    rw [hfl]
    have h1 : (0 : ℤ) ≤ ⌊env.now - t0⌋ := Int.floor_nonneg.mpr h0
    have h2 : ⌊env.now - t0⌋ < 5 :=
      Int.floor_lt.mpr (by push_cast; exact h5)
    omega
  refine ⟨?_, hN⟩
  unfold get_current_user
  rw [if_neg (fun hcond => hcond htok)]
  cases hgures : env.getUser ((extractToken cookie_access bearer).getD "") with
  | ok uid uemail => exact absurd hgures (hgu uid uemail)
  | exc e =>
    show getCurrentUserExpired env st cookie_refresh = _
    exact getCurrentUserExpired_cooldown env st cookie_refresh t0 hrt hlast h5
  | falsy =>
    show getCurrentUserExpired env st cookie_refresh = _
    exact getCurrentUserExpired_cooldown env st cookie_refresh t0 hrt hlast h5

def envC9w : HttpEnv :=
  { getUser := fun _ => GetUserResult.falsy,
    refreshTok := fun _ => RefreshResult.ok "at-3" "rt-3" (some 3600) "u9" "u9@x",
    now := 10 }

def stC9w : HttpState := ⟨[("rt-x", 8)], 1⟩

theorem C9_witness :
    get_current_user envC9w stC9w (some "at") (some "rt-x") none =
      (Except.error (PyExc.httpException 429
        (detail429 (5 - pyInt (envC9w.now - 8)))), stC9w, none) ∧
    0 < 5 - pyInt (envC9w.now - 8) :=
  C9_amended_cooldown envC9w stC9w (some "at") (some "rt-x") none 8 rfl
    (fun uid uemail h => GetUserResult.noConfusion h) rfl rfl
    (by norm_num [envC9w]) (by norm_num [envC9w])

/-! ## Claim C10 -/

/-- The exception the outer best-effort block of `logout` swallows, as a
function of the environment: nothing when the cookie is absent or the user
lookup comes back falsy; the raised exception when the user lookup or the
credential retrieval raises; and the `ValueError` of the two-name unpacking
of the three-element credential tuple when retrieval succeeds. -/
def logoutSwallowed (env : LogoutEnv) (cookie_access : Option String) : Option PyExc :=
  if ¬ pyTruthy cookie_access then none
  else
    match env.getUser (cookie_access.getD "") with
    | GetUserResult.exc e => some e
    | GetUserResult.falsy => none
    | GetUserResult.ok uid _ =>
      match get_agent_credentials env.fer env.db uid with
      | Except.error e => some e
      | Except.ok none => none
      | Except.ok (some _) =>
        some (PyExc.valueError "too many values to unpack (expected 2)")

/-- Characterization: `logout` always returns the success message with both cookies cleared
and never touches the agent sign-in counter; the only effect of the
best-effort block is the swallowed exception recorded in the outcome. -/
theorem logout_eq (env : LogoutEnv) (st : LogoutState) (cookie_access : Option String) :
    logout env st cookie_access =
      (⟨"Logged out successfully", true, true, logoutSwallowed env cookie_access⟩, st) := by
  have hbest : ∀ uid,
      logoutAgentBestEffort env st uid =
        (⟨"Logged out successfully", true, true,
          match get_agent_credentials env.fer env.db uid with
          | Except.error e => some e
          | Except.ok none => none
          | Except.ok (some _) =>
            some (PyExc.valueError "too many values to unpack (expected 2)")⟩, st) := by
    intro uid
    unfold logoutAgentBestEffort
    cases hcreds : get_agent_credentials env.fer env.db uid with
    | error e => rfl
    | ok ocreds =>
      cases ocreds with
      | none => rfl
      | some creds => rfl
  unfold logout logoutSwallowed
  by_cases hca : pyTruthy cookie_access = true
  · rw [if_neg (fun h => h hca), if_neg (fun h => h hca)]
    cases hgu : env.getUser (cookie_access.getD "") with
    | exc e => rfl
    | falsy => rfl
    | ok uid uemail =>
      show logoutAgentBestEffort env st uid = _
      rw [hbest uid]
  · have hca2 : ¬ pyTruthy cookie_access = true := hca
    rw [if_pos hca2, if_pos hca2]

/-- C10: for every request, `logout` clears both auth cookies and returns
the success message — whatever the cookie and however any internal step
fails — and it never reaches the agent sign-in (the state, including the
agent sign-in counter, is returned unchanged).  In particular, whenever
`get_agent_credentials` returns a credential tuple, the three-element tuple
is unpacked into two variables, raising `ValueError` before any agent
sign-in; the outer handler swallows it and the response is unaffected. -/
theorem C10_logout_always_succeeds (env : LogoutEnv) (st : LogoutState)
    (cookie_access : Option String) :
    (logout env st cookie_access).1.message = "Logged out successfully" ∧
    (logout env st cookie_access).1.access_cookie_cleared = true ∧
    (logout env st cookie_access).1.refresh_cookie_cleared = true ∧
    (logout env st cookie_access).2 = st ∧
    (∀ uid uemail creds,
      pyTruthy cookie_access = true →
      env.getUser (cookie_access.getD "") = GetUserResult.ok uid uemail →
      get_agent_credentials env.fer env.db uid = Except.ok (some creds) →
      (logout env st cookie_access).1.swallowed =
        some (PyExc.valueError "too many values to unpack (expected 2)")) := by
  rw [logout_eq]
  refine ⟨rfl, rfl, rfl, rfl, ?_⟩
  intro uid uemail creds hca hgu hcreds
  show logoutSwallowed env cookie_access = _
  unfold logoutSwallowed
  rw [if_neg (fun h => h hca)]
  simp only [hgu, hcreds]

def ctC10 : String :=
  match encrypt_password (some toyFernet) "c" with
  | Except.ok c => c
  | _ => ""

def envC10 : LogoutEnv :=
  { getUser := fun _ => GetUserResult.ok "u1" "u1@x",
    signOut := fun _ => SignOutResult.ok,
    fer := some toyFernet,
    db := fun _ => DbFetch.data (some ⟨some "agent-1", some ctC10⟩),
    agentSignIn := fun _ _ => SignInResult.exc }

set_option maxRecDepth 16000 in
theorem C10_witness :
    (logout envC10 ⟨5⟩ (some "tok")).1.message = "Logged out successfully" ∧
    (logout envC10 ⟨5⟩ (some "tok")).2 = (⟨5⟩ : LogoutState) ∧
    (logout envC10 ⟨5⟩ (some "tok")).1.swallowed =
      some (PyExc.valueError "too many values to unpack (expected 2)") := by
  have h := C10_logout_always_succeeds envC10 ⟨5⟩ (some "tok")
  exact ⟨h.1, h.2.2.2.1, h.2.2.2.2 "u1" "u1@x"
    ("agent-1", generate_agent_email "u1", "c") rfl rfl rfl⟩

end MyIdeas
